import Mathlib

/-!
Verification of the BMAD pipeline core: the project state machine in
`services.py`, the provider factory and requirements analyst in
`agents/requirements_analyst.py`, the UX designer, software architect and
full-stack developer agents, shallowly embedded in Lean.

AI provider calls are modelled by an oracle `Nat → Except String String`
giving, for the n-th call the running operation makes to
`_call_ai_service`, either the raised exception text (`.error`) or the
response text (`.ok`).
-/

/-- JSON values as produced by Python `json.loads`.  Numbers are kept
exactly as `m * 10 ^ e` (mantissa and decimal exponent), which represents
every literal a JSON document can contain. -/
inductive Json where
  | null : Json
  | bool (b : Bool) : Json
  | num (m : Int) (e : Int) : Json
  | str (s : String) : Json
  | arr (xs : List Json) : Json
  | obj (kvs : List (String × Json)) : Json
  deriving Repr, Inhabited

mutual

/-- Decidable equality for `Json` (the automatic derivation does not handle
the nested lists). -/
def Json.decEq : (a b : Json) → Decidable (a = b)
  | .null, .null => isTrue rfl
  | .bool x, .bool y =>
    if h : x = y then isTrue (h ▸ rfl)
    else isFalse (fun hc => h (Json.bool.inj hc))
  | .num mx ex, .num my ey =>
    if h1 : mx = my then
      if h2 : ex = ey then isTrue (h1 ▸ h2 ▸ rfl)
      else isFalse (fun hc => h2 (Json.num.inj hc).2)
    else isFalse (fun hc => h1 (Json.num.inj hc).1)
  | .str x, .str y =>
    if h : x = y then isTrue (h ▸ rfl)
    else isFalse (fun hc => h (Json.str.inj hc))
  | .arr xs, .arr ys =>
    match Json.decEqList xs ys with
    | isTrue h => isTrue (h ▸ rfl)
    | isFalse h => isFalse (fun hc => h (Json.arr.inj hc))
  | .obj xs, .obj ys =>
    match Json.decEqKVs xs ys with
    | isTrue h => isTrue (h ▸ rfl)
    | isFalse h => isFalse (fun hc => h (Json.obj.inj hc))
  | .null, .bool _ => isFalse (by intro hc; cases hc)
  | .null, .num _ _ => isFalse (by intro hc; cases hc)
  | .null, .str _ => isFalse (by intro hc; cases hc)
  | .null, .arr _ => isFalse (by intro hc; cases hc)
  | .null, .obj _ => isFalse (by intro hc; cases hc)
  | .bool _, .null => isFalse (by intro hc; cases hc)
  | .bool _, .num _ _ => isFalse (by intro hc; cases hc)
  | .bool _, .str _ => isFalse (by intro hc; cases hc)
  | .bool _, .arr _ => isFalse (by intro hc; cases hc)
  | .bool _, .obj _ => isFalse (by intro hc; cases hc)
  | .num _ _, .null => isFalse (by intro hc; cases hc)
  | .num _ _, .bool _ => isFalse (by intro hc; cases hc)
  | .num _ _, .str _ => isFalse (by intro hc; cases hc)
  | .num _ _, .arr _ => isFalse (by intro hc; cases hc)
  | .num _ _, .obj _ => isFalse (by intro hc; cases hc)
  | .str _, .null => isFalse (by intro hc; cases hc)
  | .str _, .bool _ => isFalse (by intro hc; cases hc)
  | .str _, .num _ _ => isFalse (by intro hc; cases hc)
  | .str _, .arr _ => isFalse (by intro hc; cases hc)
  | .str _, .obj _ => isFalse (by intro hc; cases hc)
  | .arr _, .null => isFalse (by intro hc; cases hc)
  | .arr _, .bool _ => isFalse (by intro hc; cases hc)
  | .arr _, .num _ _ => isFalse (by intro hc; cases hc)
  | .arr _, .str _ => isFalse (by intro hc; cases hc)
  | .arr _, .obj _ => isFalse (by intro hc; cases hc)
  | .obj _, .null => isFalse (by intro hc; cases hc)
  | .obj _, .bool _ => isFalse (by intro hc; cases hc)
  | .obj _, .num _ _ => isFalse (by intro hc; cases hc)
  | .obj _, .str _ => isFalse (by intro hc; cases hc)
  | .obj _, .arr _ => isFalse (by intro hc; cases hc)

/-- Decidable equality for lists of `Json`. -/
def Json.decEqList : (a b : List Json) → Decidable (a = b)
  | [], [] => isTrue rfl
  | [], _ :: _ => isFalse (by intro hc; cases hc)
  | _ :: _, [] => isFalse (by intro hc; cases hc)
  | x :: xs, y :: ys =>
    match Json.decEq x y, Json.decEqList xs ys with
    | isTrue h1, isTrue h2 => isTrue (h1 ▸ h2 ▸ rfl)
    | isFalse h1, _ => isFalse (fun hc => h1 (List.cons.inj hc).1)
    | _, isFalse h2 => isFalse (fun hc => h2 (List.cons.inj hc).2)

/-- Decidable equality for lists of key/value pairs of `Json`. -/
def Json.decEqKVs : (a b : List (String × Json)) → Decidable (a = b)
  | [], [] => isTrue rfl
  | [], _ :: _ => isFalse (by intro hc; cases hc)
  | _ :: _, [] => isFalse (by intro hc; cases hc)
  | (k, v) :: xs, (k2, v2) :: ys =>
    if h1 : k = k2 then
      match Json.decEq v v2, Json.decEqKVs xs ys with
      | isTrue h2, isTrue h3 => isTrue (h1 ▸ h2 ▸ h3 ▸ rfl)
      | isFalse h2, _ =>
        isFalse (fun hc => h2 (congrArg Prod.snd (List.cons.inj hc).1))
      | _, isFalse h3 => isFalse (fun hc => h3 (List.cons.inj hc).2)
    else isFalse (fun hc => h1 (congrArg Prod.fst (List.cons.inj hc).1))

end

instance : DecidableEq Json := Json.decEq

/-- the character `{` (written by code so that braces never appear in string
literals) -/
def lbrace : Char := Char.ofNat 123

/-- the character `}` -/
def rbrace : Char := Char.ofNat 125

/-- the one-character string holding the apostrophe character -/
def sQuote : String := String.singleton (Char.ofNat 39)

/-- JSON whitespace (the characters Python `json` skips between tokens). -/
def jsonWs (c : Char) : Bool :=
  c = ' ' || c = '\t' || c = '\n' || c = '\r'

/-- Drop leading JSON whitespace. -/
def skipWs : List Char → List Char
  | [] => []
  | c :: cs => if jsonWs c then skipWs cs else c :: cs

/-- Hex digit value. -/
def hexVal (c : Char) : Option Nat :=
  if '0' ≤ c ∧ c ≤ '9' then some (c.toNat - 48)
  else if 'a' ≤ c ∧ c ≤ 'f' then some (c.toNat - 87)
  else if 'A' ≤ c ∧ c ≤ 'F' then some (c.toNat - 55)
  else none

/-- Parse the contents of a JSON string after the opening quote, returning
the decoded characters and the input after the closing quote. -/
def parseStringChars : Nat → List Char → Option (List Char × List Char)
  | 0, _ => none
  | _ + 1, [] => none
  | fuel + 1, c :: cs =>
    if c = '"' then some ([], cs)
    else if c = '\\' then
      match cs with
      | [] => none
      | e :: cs2 =>
        let dec : Option (Char × List Char) :=
          if e = '"' then some ('"', cs2)
          else if e = '\\' then some ('\\', cs2)
          else if e = '/' then some ('/', cs2)
          else if e = 'b' then some (Char.ofNat 8, cs2)
          else if e = 'f' then some (Char.ofNat 12, cs2)
          else if e = 'n' then some ('\n', cs2)
          else if e = 'r' then some ('\r', cs2)
          else if e = 't' then some ('\t', cs2)
          else if e = 'u' then
            match cs2 with
            | h1 :: h2 :: h3 :: h4 :: cs3 =>
              match hexVal h1, hexVal h2, hexVal h3, hexVal h4 with
              | some a, some b, some c2, some d =>
                some (Char.ofNat (((a * 16 + b) * 16 + c2) * 16 + d), cs3)
              | _, _, _, _ => none
            | _ => none
          else none
        match dec with
        | some (ch, rest) =>
          (parseStringChars fuel rest).map (fun p => (ch :: p.1, p.2))
        | none => none
    else (parseStringChars fuel cs).map (fun p => (c :: p.1, p.2))

/-- Accumulate decimal digits: value so far, digit count, rest. -/
def parseDigitsAux (acc cnt : Nat) : List Char → Nat × Nat × List Char
  | [] => (acc, cnt, [])
  | c :: cs =>
    if c.isDigit then parseDigitsAux (acc * 10 + (c.toNat - 48)) (cnt + 1) cs
    else (acc, cnt, c :: cs)

/-- Parse a JSON number (integer part, optional fraction, optional
exponent), rejecting leading zeros as Python does. -/
def parseNumber (cs : List Char) : Option (Json × List Char) :=
  let signed : Bool × List Char :=
    match cs with
    | c :: rest => if c = '-' then (true, rest) else (false, cs)
    | [] => (false, [])
  match parseDigitsAux 0 0 signed.2 with
  | (ip, icnt, cs2) =>
    if icnt = 0 then none
    else if icnt > 1 ∧ signed.2.head? = some '0' then none
    else
      let withFrac : Option (Int × Int × List Char) :=
        match cs2 with
        | c :: rest =>
          if c = '.' then
            match parseDigitsAux 0 0 rest with
            | (fp, fcnt, cs3) =>
              if fcnt = 0 then none
              else some ((ip * 10 ^ fcnt + fp : Nat), -(fcnt : Int), cs3)
          else some ((ip : Int), 0, cs2)
        | [] => some ((ip : Int), 0, [])
      match withFrac with
      | none => none
      | some (m, e, cs3) =>
        let withExp : Option (Int × List Char) :=
          match cs3 with
          | c :: rest =>
            if c = 'e' ∨ c = 'E' then
              let esigned : Bool × List Char :=
                match rest with
                | c2 :: rest2 =>
                  if c2 = '-' then (true, rest2)
                  else if c2 = '+' then (false, rest2)
                  else (false, rest)
                | [] => (false, [])
              match parseDigitsAux 0 0 esigned.2 with
              | (ev, ecnt, cs4) =>
                if ecnt = 0 then none
                else some (e + (if esigned.1 then -(ev : Int) else (ev : Int)), cs4)
            else some (e, cs3)
          | [] => some (e, [])
        match withExp with
        | none => none
        | some (e2, cs4) =>
          some (.num (if signed.1 then -m else m) e2, cs4)

mutual

/-- Parse one JSON value, returning it and the remaining input. -/
def parseVal : Nat → List Char → Option (Json × List Char)
  | 0, _ => none
  | fuel + 1, cs =>
    match skipWs cs with
    | [] => none
    | c :: rest =>
      if c = '"' then
        (parseStringChars (fuel + 1) rest).map
          (fun p => (Json.str (String.mk p.1), p.2))
      else if c = lbrace then
        match skipWs rest with
        | c2 :: r2 =>
          if c2 = rbrace then some (Json.obj [], r2)
          else (parseMembers fuel (c2 :: r2)).map (fun p => (Json.obj p.1, p.2))
        | [] => none
      else if c = '[' then
        match skipWs rest with
        | c2 :: r2 =>
          if c2 = ']' then some (Json.arr [], r2)
          else (parseItems fuel (c2 :: r2)).map (fun p => (Json.arr p.1, p.2))
        | [] => none
      else if c = 't' then
        match rest with
        | 'r' :: 'u' :: 'e' :: r => some (.bool true, r)
        | _ => none
      else if c = 'f' then
        match rest with
        | 'a' :: 'l' :: 's' :: 'e' :: r => some (.bool false, r)
        | _ => none
      else if c = 'n' then
        match rest with
        | 'u' :: 'l' :: 'l' :: r => some (.null, r)
        | _ => none
      else if c = '-' ∨ c.isDigit then parseNumber (c :: rest)
      else none

/-- Parse the members of a JSON object (positioned at the first key),
consuming the closing brace. -/
def parseMembers : Nat → List Char → Option (List (String × Json) × List Char)
  | 0, _ => none
  | fuel + 1, cs =>
    match skipWs cs with
    | [] => none
    | c :: rest =>
      if c = '"' then
        match parseStringChars (fuel + 1) rest with
        | some (key, r1) =>
          match skipWs r1 with
          | c2 :: r2 =>
            if c2 = ':' then
              match parseVal fuel r2 with
              | some (v, r3) =>
                match skipWs r3 with
                | c3 :: r4 =>
                  if c3 = ',' then
                    (parseMembers fuel r4).map
                      (fun p => ((String.mk key, v) :: p.1, p.2))
                  else if c3 = rbrace then some ([(String.mk key, v)], r4)
                  else none
                | [] => none
              | none => none
            else none
          | [] => none
        | none => none
      else none

/-- Parse the items of a JSON array (positioned at the first item),
consuming the closing bracket. -/
def parseItems : Nat → List Char → Option (List Json × List Char)
  | 0, _ => none
  | fuel + 1, cs =>
    match parseVal fuel cs with
    | some (v, r1) =>
      match skipWs r1 with
      | c :: r2 =>
        if c = ',' then (parseItems fuel r2).map (fun p => (v :: p.1, p.2))
        else if c = ']' then some ([v], r2)
        else none
      | [] => none
    | none => none

end

/-- Model of Python `json.loads`: parse one value, then require only
whitespace to follow; any failure is a `JSONDecodeError`, modelled `none`. -/
def jsonLoads (s : String) : Option Json :=
  match parseVal (2 * s.length + 4) s.data with
  | some (v, rest) => if (skipWs rest).isEmpty then some v else none
  | none => none

/-- Last-wins lookup in an object member list, matching Python `dict`
construction (later duplicate keys overwrite earlier ones). -/
def objLookup (kvs : List (String × Json)) (key : String) : Option Json :=
  match kvs with
  | [] => none
  | (k, v) :: rest =>
    match objLookup rest key with
    | some v2 => some v2
    | none => if k = key then some v else none

/-- Python truthiness of a decoded JSON value (`if not x`). -/
def jsonTruthy : Json → Bool
  | .null => false
  | .bool b => b
  | .num m _ => m ≠ 0
  | .str s => s ≠ ""
  | .arr xs => !xs.isEmpty
  | .obj kvs => !kvs.isEmpty

/-- Model of `tech_stack.get(field)` on a decoded response: `none` when the value is
not an object or lacks the key. -/
def Json.get (j : Json) (key : String) : Option Json :=
  match j with
  | .obj kvs => objLookup kvs key
  | _ => none

/-- Model of `d.get(key, default)` restricted to string values: the string stored at
`key`, the default when the key is absent, and `""` for a non-string value
(the agents only ever compare these against fixed framework names, which a
non-string value never equals). -/
def getStrField (j : Json) (key dflt : String) : String :=
  match j.get key with
  | some (.str s) => s
  | some _ => ""
  | none => dflt

/-- Escape one character for JSON string output as Python `json.dumps`
does (ASCII default: the common short escapes; other characters pass
through — the artifacts compared in this file stay in that range). -/
def dumpChar (c : Char) : String :=
  if c = '"' then "\\\""
  else if c = '\\' then "\\\\"
  else if c = '\n' then "\\n"
  else if c = '\t' then "\\t"
  else if c = '\r' then "\\r"
  else String.singleton c

/-- Render a JSON number: an integer exactly, otherwise mantissa with
decimal exponent. -/
def dumpNum (m e : Int) : String :=
  if e = 0 then toString m
  else toString m ++ "e" ++ toString e

mutual

/-- Python `json.dumps` with its default separators (`", "` and `": "`). -/
def Json.dump : Json → String
  | .null => "null"
  | .bool true => "true"
  | .bool false => "false"
  | .num m e => dumpNum m e
  | .str s => "\"" ++ String.join (s.data.map dumpChar) ++ "\""
  | .arr xs => "[" ++ Json.dumpItems xs ++ "]"
  | .obj kvs => "\x7b" ++ Json.dumpMembers kvs ++ "\x7d"

/-- Comma-separated rendering of array items. -/
def Json.dumpItems : List Json → String
  | [] => ""
  | [x] => Json.dump x
  | x :: xs => Json.dump x ++ ", " ++ Json.dumpItems xs

/-- Comma-separated rendering of object members. -/
def Json.dumpMembers : List (String × Json) → String
  | [] => ""
  | [(k, v)] => Json.dump (.str k) ++ ": " ++ Json.dump v
  | (k, v) :: kvs =>
    Json.dump (.str k) ++ ": " ++ Json.dump v ++ ", " ++ Json.dumpMembers kvs

end


/-- Index of the first occurrence of `c` (Python `str.find`, `none` for
`-1`). -/
def findCharIdx (c : Char) : List Char → Option Nat
  | [] => none
  | x :: xs =>
    if x = c then some 0
    else (findCharIdx c xs).map (· + 1)

/-- Index of the last occurrence of `c` (Python `str.rfind`, `none` for
`-1`). -/
def rfindCharIdx (c : Char) : List Char → Option Nat
  | [] => none
  | x :: xs =>
    match rfindCharIdx c xs with
    | some i => some (i + 1)
    | none => if x = c then some 0 else none

/-- Model of `ai_response[ai_response.find(lbrace) : ai_response.rfind(rbrace) + 1]`
from `FullStackDeveloperAgent._analyze_tech_stack` — the substring between
the first `{` and the last `}`, available only when both occur (Python
slicing yields the empty string when the bounds cross, which then fails to
parse just as it does here). -/
def braceSubstring (s : String) : Option String :=
  match findCharIdx lbrace s.data, rfindCharIdx rbrace s.data with
  | some start, some last =>
    some (String.mk (((s.data).drop start).take (last + 1 - start)))
  | _, _ => none

/-- The parsing strategy of `_analyze_tech_stack` (lines 140–159): direct
`json.loads`, then on failure `json.loads` of the first-`{`-to-last-`}`
substring; `none` when both fail. -/
def parseTechStackResponse (resp : String) : Option Json :=
  match jsonLoads resp with
  | some ts => some ts
  | none =>
    match braceSubstring resp with
    | some sub => jsonLoads sub
    | none => none

/-- The hardcoded fallback tech stack `_analyze_tech_stack` returns when
every parsing attempt fails (lines 163–182). -/
def fallbackTechStack : Json :=
  .obj
    [ ("project_type", .str "web_app")
    , ("tech_stack_reasoning", .str "Fallback due to AI response parsing failure")
    , ("frontend", .obj
        [ ("framework", .str "HTML/CSS")
        , ("language", .str "HTML")
        , ("styling", .str "CSS") ])
    , ("backend", .obj
        [ ("language", .str "None")
        , ("framework", .str "None") ])
    , ("database", .obj [("type", .str "None")])
    , ("deployment", .obj
        [ ("platform", .str "Static Hosting")
        , ("containerization", .str "None") ]) ]

/-- Model of `FullStackDeveloperAgent._analyze_tech_stack` as a function of the AI
call outcome: a failed or empty call raises (wrapped by the outer
`except`); any non-empty response yields a tech stack — parsed when
possible, otherwise the hardcoded fallback. -/
def FullStackDeveloperAgent.analyze_tech_stack
    (call : Except String String) : Except String Json :=
  match call with
  | .error e =>
    .error ("AI tech stack analysis failed: " ++ e ++
      ". Please retry or check your AI provider configuration.")
  | .ok resp =>
    if resp = "" then
      .error ("AI tech stack analysis failed: AI response was empty" ++
        ". Please retry or check your AI provider configuration.")
    else
      match parseTechStackResponse resp with
      | some ts => .ok ts
      | none => .ok fallbackTechStack

/-- Does `needle` occur at the head of `hay`? -/
def listStartsWith : List Char → List Char → Bool
  | [], _ => true
  | _ :: _, [] => false
  | x :: xs, y :: ys => x = y && listStartsWith xs ys

/-- Does `needle` occur anywhere in `hay`? -/
def listContainsSub (needle : List Char) : List Char → Bool
  | [] => needle.isEmpty
  | c :: t => listStartsWith needle (c :: t) || listContainsSub needle t

/-- Python `str.strip()` (only ever applied to ASCII artifacts here). -/
def pyStrip (s : String) : String :=
  String.mk
    (((s.data.dropWhile Char.isWhitespace).reverse.dropWhile
        Char.isWhitespace).reverse)

/-- Python `str.startswith`. -/
def pyStartsWith (s pre : String) : Bool :=
  listStartsWith pre.data s.data

/-- Python `str.endswith`. -/
def pyEndsWith (s suf : String) : Bool :=
  listStartsWith suf.data.reverse s.data.reverse

/-- Python `str.lower()`. -/
def pyLower (s : String) : String :=
  String.mk (s.data.map Char.toLower)

/-- The provider registry of `AIProviderFactory._providers`
(`requirements_analyst.py` lines 79–86). -/
def AIProviderFactory.providerNames : List String := ["anthropic", "openai"]

/-- A constructed provider instance: `BaseAIProvider.__init__` stores the
API key; the concrete class is identified by the registry name. -/
structure AIProviderInstance where
  providerName : String
  apiKey : String
  deriving Repr, DecidableEq

/-- Python `repr` of a list of strings, as interpolated into the
unsupported-provider message by `list(cls._providers.keys())`. -/
def pyStrListRepr (xs : List String) : String :=
  "[" ++ String.intercalate ", " (xs.map (fun s => sQuote ++ s ++ sQuote)) ++ "]"

/-- The `ValueError` message for an unknown provider name. -/
def AIProviderFactory.unsupportedMessage (provider_name : String) : String :=
  "Unsupported AI provider: " ++ provider_name ++ ". Supported providers: " ++
    pyStrListRepr AIProviderFactory.providerNames

/-- Model of `AIProviderFactory.create_provider` (lines 88–95): unknown names raise
`ValueError` listing the registered providers. -/
def AIProviderFactory.create_provider (provider_name api_key : String) :
    Except String AIProviderInstance :=
  if provider_name ∈ AIProviderFactory.providerNames then
    .ok ⟨provider_name, api_key⟩
  else .error (AIProviderFactory.unsupportedMessage provider_name)

/-- The AI-call oracle: outcome of the n-th `_call_ai_service` provider
invocation an operation makes — the exception text of the underlying
failure, or the response text. -/
abbrev Oracle := Nat → Except String String

/-- The wrapping every raising `_call_ai_service` applies
(`requirements_analyst.py` lines 430–432 and the identical copies in the
architect and full-stack agents): a `RuntimeError` whose message is
"Failed to call AI service " followed by the quoted provider name, a
colon and the original error text. -/
def callAiWrap (ai_provider : String) : Except String String → Except String String
  | .error e =>
    .error ("Failed to call AI service " ++ sQuote ++ ai_provider ++ sQuote ++
      ": " ++ e)
  | .ok r => .ok r

/-- An oracle whose failures carry the `_call_ai_service` wrapping. -/
def wrapOracle (ai_provider : String) (oracle : Oracle) : Oracle :=
  fun n => callAiWrap ai_provider (oracle n)

/-- A `bmad_projects` row as the service layer manipulates it.  The columns
are those of `models.Project`; `ux_design` and `application_type` are not
declared as columns but are attributes the services and API read and
write, so they are part of the manipulated state. -/
structure Project where
  id : Nat
  name : String
  description : Option String
  requirements : String
  refined_requirements : Option String
  user_stories : Option String
  data_model : Option String
  system_architecture : Option String
  ux_design : Option String
  status : String
  archived : Bool
  ai_provider : String
  application_type : Option String
  deriving Repr, DecidableEq

/-- Model of `schemas.ProjectUpdate` under `model_dump(exclude_unset=True)`: `none`
means the field was not submitted. -/
structure ProjectUpdate where
  name : Option String := none
  description : Option String := none
  requirements : Option String := none
  application_type : Option String := none
  ai_provider : Option String := none
  deriving Repr, DecidableEq

/-- Model of `ProjectService.update_project` (services.py lines 63–85): apply the
submitted fields, and when the submitted `requirements` differ from the
stored ones reset `status` to draft and clear `refined_requirements` and
`user_stories`. -/
def ProjectService.update_project (project : Project) (upd : ProjectUpdate) :
    Project :=
  let requirements_updated : Bool :=
    match upd.requirements with
    | some r => r ≠ project.requirements
    | none => false
  let p1 : Project := { project with
    name := upd.name.getD project.name
    description :=
      match upd.description with
      | some d => some d
      | none => project.description
    requirements := upd.requirements.getD project.requirements
    application_type :=
      match upd.application_type with
      | some t => some t
      | none => project.application_type
    ai_provider := upd.ai_provider.getD project.ai_provider }
  if requirements_updated then
    { p1 with
      status := "draft"
      refined_requirements := none
      user_stories := none }
  else p1

/-- Outcome dictionary of a stage operation: the `success` flag with the
`error` value accompanying a failure. -/
inductive StageResult where
  | success : StageResult
  | failure (error : String) : StageResult
  deriving Repr, DecidableEq

/-- Whether the stage result is a failure. -/
def StageResult.isFailure : StageResult → Bool
  | .success => false
  | .failure _ => true

/-- Python truthiness of an optional text column (`if not
project.refined_requirements` is taken for `None` and for `""`). -/
def optPresent : Option String → Bool
  | none => false
  | some s => s ≠ ""

/-- Model of `RequirementsAnalystAgent._validate_requirements_ai` (lines 271–326) as
a function of the requirements text and the validation call outcome.
Blank input refuses without calling the AI.  A failed call, a non-JSON
response, a response that is not a JSON object (indexing it raises and is
caught), or an object without a `"sufficient"` key all default to
`(True, "")`.  Only an object whose `"sufficient"` value is falsy refuses;
`guidance` is its `"guidance"` value (rendered; only ever interpolated
into the refusal message). -/
def RequirementsAnalystAgent.validate_requirements_ai (requirements : String)
    (call : Except String String) : Bool × String :=
  if requirements = "" ∨ pyStrip requirements = "" then
    (false, "Please provide requirements to analyze.")
  else
    match call with
    | .error _ => (true, "")
    | .ok resp =>
      match jsonLoads resp with
      | none => (true, "")
      | some (.obj kvs) =>
        match objLookup kvs "sufficient" with
        | some v =>
          let guidance :=
            match objLookup kvs "guidance" with
            | some (.str g) => g
            | some g => Json.dump g
            | none => ""
          (jsonTruthy v, guidance)
        | none => (true, "")
      | some _ => (true, "")

/-- Model of `RequirementsAnalystAgent._analyze_project_context` (lines 233–268):
validate (call 0), refuse when insufficient, then parse the context call
(call 1) strictly. -/
def RequirementsAnalystAgent.analyze_project_context (requirements : String)
    (oracle : Oracle) : Except String Json :=
  let v := RequirementsAnalystAgent.validate_requirements_ai requirements (oracle 0)
  if !v.1 then
    .error ("Requirements are insufficient for analysis. Please provide detailed requirements including:\n"
      ++ v.2
      ++ "\nYou can provide a more detailed response to these questions in the next step.")
  else
    match oracle 1 with
    | .error e => .error e
    | .ok resp =>
      match jsonLoads resp with
      | some ctx => .ok ctx
      | none =>
        .error ("AI context analysis did not return valid JSON. Raw response: " ++ resp)

/-- The artifacts `RequirementsAnalystAgent.analyze_requirements` returns. -/
structure AnalysisOutput where
  refined_requirements : String
  user_stories : Json
  deriving Repr, DecidableEq

/-- Model of `RequirementsAnalystAgent.analyze_requirements` (lines 194–230): context
analysis, then refined requirements (call 2, which must be non-blank, lines
355–358), then user stories (call 3, which must parse, lines 391–395).  The
oracle here is already `_call_ai_service`-wrapped. -/
def RequirementsAnalystAgent.analyze_requirements (requirements : String)
    (oracle : Oracle) : Except String AnalysisOutput :=
  match RequirementsAnalystAgent.analyze_project_context requirements oracle with
  | .error e => .error e
  | .ok _ctx =>
    match oracle 2 with
    | .error e => .error e
    | .ok resp =>
      if resp = "" ∨ pyStrip resp = "" then
        .error "AI service returned empty response for refined requirements"
      else
        match oracle 3 with
        | .error e => .error e
        | .ok resp2 =>
          match jsonLoads resp2 with
          | some stories => .ok ⟨resp, stories⟩
          | none => .error ("AI response was not valid JSON: " ++ resp2)

/-- Model of `ProjectService.analyze_requirements` (services.py lines 110–147): on
agent success commit the new artifacts, advance the status and clear the
downstream `system_architecture` and `ux_design`; on any raise, roll the
transaction back (the project is exactly as before) and report the typed
failure. -/
def ProjectService.analyze_requirements (project : Project) (oracle : Oracle) :
    Project × StageResult :=
  match RequirementsAnalystAgent.analyze_requirements project.requirements
      (wrapOracle project.ai_provider oracle) with
  | .error e => (project, .failure ("Analysis failed: " ++ e))
  | .ok res =>
    ({ project with
        refined_requirements := some res.refined_requirements
        user_stories := some (Json.dump res.user_stories)
        status := "Requirements Complete"
        system_architecture := none
        ux_design := none },
      .success)

/-- Does `needle` occur in `hay` (Python `in` on strings)? -/
def strContains (hay needle : String) : Bool :=
  listContainsSub needle.data hay.data

/-- The hardcoded context `SoftwareArchitectAgent._analyze_project_context`
falls back to when the AI call fails in any way (lines 158–174). -/
def SoftwareArchitectAgent.fallbackContext (requirements : String)
    (refined_requirements data_model : Option String) : Json :=
  let all_text := pyLower (requirements ++ " " ++
    refined_requirements.getD "" ++ " " ++ data_model.getD "")
  let project_type :=
    if strContains all_text "web" ∨ strContains all_text "site" then
      "web application"
    else "general application"
  .obj
    [ ("project_type", .str project_type)
    , ("domain", .str "general business")
    , ("core_components", .arr
        [.str "User Interface", .str "Business Logic", .str "Data Storage"])
    , ("technical_requirements", .arr [.str "Basic CRUD operations"])
    , ("scalability_needs", .str "low")
    , ("security_requirements", .arr [.str "Basic input validation"])
    , ("integration_needs", .arr []) ]

/-- Model of `SoftwareArchitectAgent._analyze_project_context` (lines 114–174): a
failed call, an empty response or a non-JSON response all fall back; this
step never raises. -/
def SoftwareArchitectAgent.analyze_project_context (requirements : String)
    (refined_requirements data_model : Option String)
    (call : Except String String) : Json :=
  match call with
  | .error _ => SoftwareArchitectAgent.fallbackContext requirements refined_requirements data_model
  | .ok resp =>
    if resp = "" then
      SoftwareArchitectAgent.fallbackContext requirements refined_requirements data_model
    else
      match jsonLoads resp with
      | some ctx => ctx
      | none => SoftwareArchitectAgent.fallbackContext requirements refined_requirements data_model

/-- The fallback architecture document of
`SoftwareArchitectAgent._generate_system_architecture` (lines 220–236),
with `err` the text of the caught exception. -/
def SoftwareArchitectAgent.fallbackArchitecture (project_name err : String) :
    String :=
  "# System Architecture for " ++ project_name ++
  "\n\n## Executive Summary\nBasic system architecture for " ++ project_name ++
  " based on requirements analysis.\n\n## System Overview\n- **Architecture Pattern**: Layered architecture\n- **Technology Stack**: Modern web technologies\n- **Components**: User interface, business logic, data storage\n\n## Implementation Notes\nThis is a fallback architecture. Please regenerate using AI for a complete design.\n\nError: "
  ++ err ++ "\n            "

/-- Model of `SoftwareArchitectAgent._generate_system_architecture` (lines 177–236):
the response text when the call succeeds and is non-empty, otherwise the
fallback document carrying the caught error; this step never raises. -/
def SoftwareArchitectAgent.generate_system_architecture (project_name : String)
    (call : Except String String) : String :=
  match call with
  | .error e => SoftwareArchitectAgent.fallbackArchitecture project_name e
  | .ok resp =>
    if resp = "" then
      SoftwareArchitectAgent.fallbackArchitecture project_name "AI response was empty"
    else resp

/-- Model of `SoftwareArchitectAgent.analyze_requirements` (lines 79–111): context
(call 0) then the architecture document (call 1); returns the document and
the context placed in the metadata.  No precondition on
`refined_requirements` is checked anywhere on this path. -/
def SoftwareArchitectAgent.analyze_requirements (project_name requirements : String)
    (refined_requirements : Option String) (oracle : Oracle) : String × Json :=
  let ctx := SoftwareArchitectAgent.analyze_project_context requirements
    refined_requirements none (oracle 0)
  (SoftwareArchitectAgent.generate_system_architecture project_name (oracle 1), ctx)

/-- Model of `ProjectService.generate_system_architecture` (services.py lines
188–223): runs the architect unconditionally (the agent never raises, so
the `except` branch is unreachable), commits the document, advances the
status and clears `ux_design`. -/
def ProjectService.generate_system_architecture (project : Project)
    (oracle : Oracle) : Project × StageResult :=
  let architecture_result := SoftwareArchitectAgent.analyze_requirements
    project.name project.requirements project.refined_requirements
    (wrapOracle project.ai_provider oracle)
  ({ project with
      system_architecture := some architecture_result.1
      status := "System Architecture Complete"
      ux_design := none },
    .success)

/-- The dictionary `UXDesignerAgent.analyze_requirements` returns. -/
inductive UXResult where
  | success (ux_design : String) : UXResult
  | failure (error : String) : UXResult
  deriving Repr, DecidableEq

/-- Model of `UXDesignerAgent.analyze_requirements` (ux_designer.py lines 81–168) as
a function of its one AI call: `_call_ai_service` catches provider errors
into `{"success": False, "error": "AI service call failed: ..."}` (lines
217–221), which the agent re-raises and re-wraps; a successful call of ANY
text — including the empty string — is returned as a successful
`ux_design`. -/
def UXDesignerAgent.analyze_requirements (call : Except String String) :
    UXResult :=
  match call with
  | .error e =>
    .failure ("UX/UI design generation failed: AI service call failed: AI service call failed: " ++ e)
  | .ok resp => .success resp

/-- The `TypeError` message for the agent call in
`ProjectService.generate_ux_design` (CPython 3.10+ wording). -/
def missingApplicationTypeMsg : String :=
  "UXDesignerAgent.analyze_requirements() missing 1 required positional argument: "
    ++ sQuote ++ "application_type" ++ sQuote

/-- Model of `ProjectService.generate_ux_design` (services.py lines 149–186).  The
call at lines 158–165 passes `project_name`, `requirements`,
`refined_requirements`, `system_architecture`, `ai_provider` and
`db_session` but omits the required `application_type` parameter of
`UXDesignerAgent.analyze_requirements` (ux_designer.py lines 81–90), so
Python raises `TypeError` at the call itself, before the agent body runs;
the surrounding `except` rolls back and reports the failure, leaving the
project unchanged. -/
def ProjectService.generate_ux_design (project : Project) (_oracle : Oracle) :
    Project × StageResult :=
  (project, .failure ("Error generating UX design: " ++ missingApplicationTypeMsg))

/-- Model of `tech_stack.get("backend") or` the empty dict
(full_stack_developer.py line 454): a missing or falsy value becomes the
empty dict. -/
def backendInfo (ts : Json) : Json :=
  match ts.get "backend" with
  | some b => if jsonTruthy b then b else .obj []
  | none => .obj []

/-- Model of `tech_stack.get("frontend") or` the empty dict (line 571). -/
def frontendInfo (ts : Json) : Json :=
  match ts.get "frontend" with
  | some f => if jsonTruthy f then f else .obj []
  | none => .obj []

/-- Model of `tech_stack.get("deployment") or` the empty dict (line 502). -/
def deploymentInfo (ts : Json) : Json :=
  match ts.get "deployment" with
  | some d => if jsonTruthy d then d else .obj []
  | none => .obj []

/-- The backend language used by `_generate_ai_config_files` (line 455):
default `"Node.js"` both when backend info is falsy and when the key is
absent. -/
def configBackendLang (ts : Json) : String :=
  let b := backendInfo ts
  if jsonTruthy b then getStrField b "language" "Node.js" else "Node.js"

/-- The backend language used by `_generate_ai_source_files` (line 570):
default `"None"` when backend info is falsy, `"Node.js"` when only the key
is absent. -/
def sourceBackendLang (ts : Json) : String :=
  let b := backendInfo ts
  if jsonTruthy b then getStrField b "language" "Node.js" else "None"

/-- The frontend framework used by `_generate_ai_source_files` (line 572). -/
def sourceFrontendFramework (ts : Json) : String :=
  let f := frontendInfo ts
  if jsonTruthy f then getStrField f "framework" "React.js" else "HTML/CSS"

/-- The frontend framework used by `_generate_ai_static_website`
(line 904), whose default is `"HTML"`. -/
def staticFrontendFramework (ts : Json) : String :=
  let f := frontendInfo ts
  if jsonTruthy f then getStrField f "framework" "HTML" else "HTML"

/-- Model of `deployment_info.get("containerization") == "Docker"` (line 503). -/
def wantsDocker (ts : Json) : Bool :=
  (deploymentInfo ts).get "containerization" = some (.str "Docker")

/-- The final `.gitignore` task of `_generate_ai_config_files` (lines
523–542).  All config tasks live in one `try`, so a failing call discards
the files recorded so far and skips the remaining tasks (lines 546–548). -/
def configGitignoreStep (oracle : Oracle) (files : List String) (c : Nat) :
    List String × Nat :=
  match oracle c with
  | .error _ => ([], c + 1)
  | .ok _ => (files ++ [".gitignore"], c + 1)

/-- The Dockerfile task of `_generate_ai_config_files` (lines 501–521). -/
def configDockerStep (oracle : Oracle) (ts : Json) (files : List String)
    (c : Nat) : List String × Nat :=
  if wantsDocker ts then
    match oracle c with
    | .error _ => ([], c + 1)
    | .ok _ => configGitignoreStep oracle (files ++ ["Dockerfile"]) (c + 1)
  else configGitignoreStep oracle files c

/-- Model of `FullStackDeveloperAgent._generate_ai_config_files` (lines 440–548):
package manifest (by backend language), optional Dockerfile, `.gitignore`,
sequentially in one `try`; the first failing call makes the whole function
return `[]` — no per-task record survives and later sibling tasks are not
attempted. -/
def FullStackDeveloperAgent.generate_ai_config_files (oracle : Oracle)
    (c : Nat) (ts : Json) : List String × Nat :=
  let lang := configBackendLang ts
  if lang = "Node.js" then
    match oracle c with
    | .error _ => ([], c + 1)
    | .ok _ => configDockerStep oracle ts ["package.json"] (c + 1)
  else if lang = "Python" then
    match oracle c with
    | .error _ => ([], c + 1)
    | .ok _ => configDockerStep oracle ts ["requirements.txt"] (c + 1)
  else configDockerStep oracle ts [] c

/-- Model of `_generate_ai_nodejs_backend` (lines 629–699): server file then env
template in one `try`; a failure returns `[]`. -/
def FullStackDeveloperAgent.generate_ai_nodejs_backend (oracle : Oracle)
    (c : Nat) : List String × Nat :=
  match oracle c with
  | .error _ => ([], c + 1)
  | .ok _ =>
    match oracle (c + 1) with
    | .error _ => ([], c + 2)
    | .ok _ => (["server.js", ".env.example"], c + 2)

/-- Model of `_generate_ai_python_backend` (lines 701–750). -/
def FullStackDeveloperAgent.generate_ai_python_backend (oracle : Oracle)
    (c : Nat) : List String × Nat :=
  match oracle c with
  | .error _ => ([], c + 1)
  | .ok _ => (["main.py"], c + 1)

/-- Model of `_generate_ai_react_frontend` (lines 752–829). -/
def FullStackDeveloperAgent.generate_ai_react_frontend (oracle : Oracle)
    (c : Nat) : List String × Nat :=
  match oracle c with
  | .error _ => ([], c + 1)
  | .ok _ =>
    match oracle (c + 1) with
    | .error _ => ([], c + 2)
    | .ok _ => (["frontend/src/App.js", "frontend/package.json"], c + 2)

/-- Model of `_generate_ai_vue_frontend` (lines 831–883). -/
def FullStackDeveloperAgent.generate_ai_vue_frontend (oracle : Oracle)
    (c : Nat) : List String × Nat :=
  match oracle c with
  | .error _ => ([], c + 1)
  | .ok _ => (["frontend/main.js"], c + 1)

/-- Characters up to the first quote of either kind (the regex class
`[^"\x27]*` of line 1170), with the rest after the closing quote. -/
def takeUntilQuote : List Char → Option (List Char × List Char)
  | [] => none
  | c :: cs =>
    if c = '"' ∨ c = Char.ofNat 39 then some ([], cs)
    else (takeUntilQuote cs).map (fun p => (c :: p.1, p.2))

/-- One attempted match of `href=["\x27]([^"\x27]*\.html)["\x27]` at the
head of the input: the capture is the run between the quotes provided it
ends in `.html`. -/
def tryHrefAt (cs : List Char) : Option (String × List Char) :=
  match cs with
  | 'h' :: 'r' :: 'e' :: 'f' :: '=' :: q :: rest =>
    if q = '"' ∨ q = Char.ofNat 39 then
      match takeUntilQuote rest with
      | some (run, after) =>
        let s := String.mk run
        if pyEndsWith s ".html" then some (s, after) else none
      | none => none
    else none
  | _ => none

/-- Model of `re.findall` of the href pattern: scan left to right, non-overlapping
matches. -/
def extractHrefsAux : Nat → List Char → List String
  | 0, _ => []
  | _ + 1, [] => []
  | fuel + 1, c :: t =>
    match tryHrefAt (c :: t) with
    | some (link, rest) => link :: extractHrefsAux fuel rest
    | none => extractHrefsAux fuel t

/-- The navigation links `_generate_static_pages` extracts from the
generated index page (lines 1169–1171). -/
def extractHtmlHrefs (s : String) : List String :=
  extractHrefsAux (s.length + 1) s.data

/-- Page-generation loop of `_generate_static_pages` (lines 1197–1244): one
call per non-index page; `none` when a call raised (aborting the whole
page list). -/
def genPagesLoop (oracle : Oracle) (is_jekyll : Bool) :
    List String → Nat → Option (List String) × Nat
  | [], c => (some [], c)
  | f :: fs, c =>
    match oracle c with
    | .error _ => (none, c + 1)
    | .ok _ =>
      match genPagesLoop oracle is_jekyll fs (c + 1) with
      | (some rest, c2) =>
        (some ((if is_jekyll then "pages/" ++ f else f) :: rest), c2)
      | (none, c2) => (none, c2)

/-- Model of `FullStackDeveloperAgent._generate_static_pages` (lines 1121–1250):
generate `index.html`, extract its `.html` navigation links (adding
`about.html`/`contact.html` when none are found), then generate each page;
any raising call makes the whole function return `[]`. -/
def FullStackDeveloperAgent.generate_static_pages (oracle : Oracle) (c : Nat)
    (is_jekyll : Bool) : List String × Nat :=
  match oracle c with
  | .error _ => ([], c + 1)
  | .ok index_response =>
    let nav_links := (extractHtmlHrefs index_response).filter (· ≠ "index.html")
    let page_files :=
      if nav_links.isEmpty then ["about.html", "contact.html"] else nav_links
    match genPagesLoop oracle is_jekyll page_files (c + 1) with
    | (some pages, c2) => ("index.html" :: pages, c2)
    | (none, c2) => ([], c2)

/-- Model of `_generate_html_site` (lines 1036–1119): css, optional main.js (skipped
when the response opens with the no-JavaScript marker), then the static
pages; a raising call before the pages step returns `[]`. -/
def FullStackDeveloperAgent.generate_html_site (oracle : Oracle) (c : Nat) :
    List String × Nat :=
  match oracle c with
  | .error _ => ([], c + 1)
  | .ok _css =>
    match oracle (c + 1) with
    | .error _ => ([], c + 2)
    | .ok js_response =>
      let jsFiles :=
        if pyStartsWith (pyStrip js_response) "// No JavaScript required" then []
        else ["js/main.js"]
      let pages := FullStackDeveloperAgent.generate_static_pages oracle (c + 2) false
      (["css/style.css"] ++ jsFiles ++ pages.1, pages.2)

/-- Model of `_generate_jekyll_site` (lines 925–1034): config, layout, css, then the
static pages. -/
def FullStackDeveloperAgent.generate_jekyll_site (oracle : Oracle) (c : Nat) :
    List String × Nat :=
  match oracle c with
  | .error _ => ([], c + 1)
  | .ok _ =>
    match oracle (c + 1) with
    | .error _ => ([], c + 2)
    | .ok _ =>
      match oracle (c + 2) with
      | .error _ => ([], c + 3)
      | .ok _ =>
        let pages := FullStackDeveloperAgent.generate_static_pages oracle (c + 3) true
        (["_config.yml", "_layouts/default.html", "assets/css/main.css"] ++ pages.1,
          pages.2)

/-- Model of `_generate_ai_static_website` (lines 885–923): dispatch on the
framework between the Jekyll and plain HTML site generators. -/
def FullStackDeveloperAgent.generate_ai_static_website (oracle : Oracle)
    (c : Nat) (ts : Json) : List String × Nat :=
  if staticFrontendFramework ts = "Jekyll" then
    FullStackDeveloperAgent.generate_jekyll_site oracle c
  else FullStackDeveloperAgent.generate_html_site oracle c

/-- Model of `FullStackDeveloperAgent._generate_ai_source_files` (lines 550–627):
backend dispatch on language (unsupported values logged and skipped, never
fatal), then frontend dispatch on framework; the sub-generators catch
their own failures, so this function never raises. -/
def FullStackDeveloperAgent.generate_ai_source_files (oracle : Oracle)
    (c : Nat) (ts : Json) : List String × Nat :=
  let project_type := getStrField ts "project_type" "web_app"
  let backend_lang := sourceBackendLang ts
  let frontend_framework := sourceFrontendFramework ts
  let backendRes :=
    if backend_lang = "Node.js" then
      FullStackDeveloperAgent.generate_ai_nodejs_backend oracle c
    else if backend_lang = "Python" then
      FullStackDeveloperAgent.generate_ai_python_backend oracle c
    else ([], c)
  let frontendRes :=
    if frontend_framework = "React.js" then
      FullStackDeveloperAgent.generate_ai_react_frontend oracle backendRes.2
    else if frontend_framework = "Vue.js" then
      FullStackDeveloperAgent.generate_ai_vue_frontend oracle backendRes.2
    else if frontend_framework = "Jekyll" ∨ frontend_framework = "HTML/CSS" ∨
        frontend_framework = "HTML" ∨ project_type = "static_website" then
      FullStackDeveloperAgent.generate_ai_static_website oracle backendRes.2 ts
    else ([], backendRes.2)
  (backendRes.1 ++ frontendRes.1, frontendRes.2)

/-- Model of `FullStackDeveloperAgent._generate_ai_driven_project` (lines 364–438):
the folder-structure call (whose parse failure only changes which folders
are created on disk), then config files, then source files.  Only the
structure call can raise here; its error is re-wrapped and later caught by
`_generate_code` (lines 355–362) into a failed code-generation record that
does NOT fail the stage. -/
def FullStackDeveloperAgent.generate_ai_driven_project (oracle : Oracle)
    (c : Nat) (ts : Json) : Except String (List String) × Nat :=
  match oracle c with
  | .error e => (.error ("Failed to generate AI-driven project: " ++ e), c + 1)
  | .ok _structure_response =>
    let cfg := FullStackDeveloperAgent.generate_ai_config_files oracle (c + 1) ts
    let src := FullStackDeveloperAgent.generate_ai_source_files oracle cfg.2 ts
    (.ok (cfg.1 ++ src.1), src.2)

/-- Model of `_generate_project_structure` name sanitisation (line 270–271). -/
def sanitizeProjectName (project_name : String) : String :=
  let kept := (pyLower project_name).data.filter
    (fun c => c.isAlphanum ∨ c = ' ' ∨ c = '-' ∨ c = '_')
  let stripped := (kept.reverse.dropWhile (fun c => c.isWhitespace)).reverse
  String.mk (stripped.map (fun c => if c = ' ' ∨ c = '-' then '_' else c))

/-- Decidable equality for `Except` results. -/
instance {e a : Type} [DecidableEq e] [DecidableEq a] : DecidableEq (Except e a) :=
  fun x y =>
    match x, y with
    | .error u, .error v =>
      if h : u = v then isTrue (h ▸ rfl)
      else isFalse (fun hc => h (Except.error.inj hc))
    | .ok u, .ok v =>
      if h : u = v then isTrue (h ▸ rfl)
      else isFalse (fun hc => h (Except.ok.inj hc))
    | .error _, .ok _ => isFalse (by intro hc; cases hc)
    | .ok _, .error _ => isFalse (by intro hc; cases hc)

/-- The successful return dictionary of
`FullStackDeveloperAgent.generate_project` (lines 59–66):
`code_generation` is the caught-or-successful record of `_generate_code`
(`.ok` carries `files_created`, `.error` the recorded failure text);
`documentation` is the constant list `_generate_documentation` reports. -/
structure GenPayload where
  project_path : String
  tech_stack : Json
  code_generation : Except String (List String)
  documentation : List String
  message : String
  deriving Repr, DecidableEq

/-- Model of `FullStackDeveloperAgent.generate_project` (lines 16–76) with the
next-call counter threaded through: data model (call 0, raising on failure
or empty), tech-stack analysis (call 1, raising on failure or empty,
falling back on parse failure), project structure (filesystem only), then
the code generation fan-out and documentation, whose failures are caught
and recorded without failing the run. -/
def FullStackDeveloperAgent.generate_project (project_id : Nat)
    (project_name ai_provider : String) (oracle : Oracle) :
    Except String GenPayload × Nat :=
  let o := wrapOracle ai_provider oracle
  match o 0 with
  | .error e =>
    (.error ("Failed to generate project: Data model generation failed: " ++ e ++
      ". Please retry or check your AI provider configuration."), 1)
  | .ok dm =>
    if dm = "" then
      (.error ("Failed to generate project: Data model generation failed: AI response was empty"
        ++ ". Please retry or check your AI provider configuration."), 1)
    else
      match FullStackDeveloperAgent.analyze_tech_stack (o 1) with
      | .error e => (.error ("Failed to generate project: " ++ e), 2)
      | .ok ts =>
        let project_path :=
          "projects/" ++ toString project_id ++ "_" ++ sanitizeProjectName project_name
        let code := FullStackDeveloperAgent.generate_ai_driven_project o 2 ts
        (.ok
          { project_path := project_path
            tech_stack := ts
            code_generation := code.1
            documentation := ["README.md", "tech-stack.md"]
            message := "Project " ++ sQuote ++ project_name ++ sQuote ++
              " generated successfully at " ++ project_path },
          code.2)

/-- Model of `ProjectService.generate_project` (services.py lines 225–263): the only
stage with precondition checks — each of `refined_requirements`,
`system_architecture` and `ux_design` must be present (and non-empty, the
Python truthiness test) or the stage fails before the agent is invoked;
on agent success the status advances, on agent failure the project is
untouched. -/
def ProjectService.generate_project (project : Project) (oracle : Oracle) :
    Project × StageResult :=
  if !optPresent project.refined_requirements then
    (project, .failure "Requirements analysis must be completed first")
  else if !optPresent project.system_architecture then
    (project, .failure "System architecture must be completed first")
  else if !optPresent project.ux_design then
    (project, .failure "UX/UI design must be completed first")
  else
    match (FullStackDeveloperAgent.generate_project project.id project.name
        project.ai_provider oracle).1 with
    | .ok _ => ({ project with status := "Project Generated" }, .success)
    | .error e => (project, .failure e)

/-- The four stage operations `ProjectService` exposes. -/
inductive StageOp where
  | analyze : StageOp
  | architecture : StageOp
  | uxdesign : StageOp
  | generate : StageOp
  deriving Repr, DecidableEq

/-- Uniform dispatcher over the four stage operations. -/
def ProjectService.runStage : StageOp → Project → Oracle → Project × StageResult
  | .analyze, p, o => ProjectService.analyze_requirements p o
  | .architecture, p, o => ProjectService.generate_system_architecture p o
  | .uxdesign, p, o => ProjectService.generate_ux_design p o
  | .generate, p, o => ProjectService.generate_project p o

/-- A project that has reached the generated stage, with every artifact
slot populated. -/
def projGenerated : Project :=
  { id := 1
    name := "Guitar Site"
    description := some "demo"
    requirements := "a website with pictures of guitars"
    refined_requirements := some "refined"
    user_stories := some "[]"
    data_model := none
    system_architecture := some "arch"
    ux_design := some "ux"
    status := "Project Generated"
    archived := false
    ai_provider := "anthropic"
    application_type := none }

/-- A freshly created project: only `requirements` set, stage draft. -/
def draftProject : Project :=
  { projGenerated with
    refined_requirements := none
    user_stories := none
    system_architecture := none
    ux_design := none
    status := "draft" }

/-- An oracle on which every provider call raises. -/
def badOracle : Oracle := fun _ => .error "boom"

/-- An oracle giving a well-formed context response then a fixed
architecture document. -/
def archOracle : Oracle := fun n =>
  if n = 0 then .ok "\x7b\"project_type\": \"web application\"\x7d"
  else .ok "THE ARCHITECTURE DOCUMENT"

/-- An oracle on which every provider call returns the empty string. -/
def emptyOracle : Oracle := fun _ => .ok ""

/-- The generation-ready concrete project. -/
def readyProject : Project :=
  { projGenerated with id := 7, name := "demo" }

/-- The tech-stack decision response used in the fan-out scenario:
Node.js backend, Docker deployment, a frontend framework outside the
dispatch table. -/
def techStackResponse : String :=
  "\x7b\"project_type\": \"web_app\", \"backend\": \x7b\"language\": \"Node.js\"\x7d, \"frontend\": \x7b\"framework\": \"Svelte\"\x7d, \"deployment\": \x7b\"containerization\": \"Docker\"\x7d\x7d"

/-- The fan-out scenario oracle: every call succeeds except call 4 — the
Dockerfile config task, the second of the four file-generation tasks
(package.json, Dockerfile, .gitignore, then the backend files). -/
def fanOutOracle : Oracle := fun n =>
  if n = 1 then .ok techStackResponse
  else if n = 4 then .error "rate limited"
  else .ok "GENERATED CONTENT"

/-- The validation call itself failed: the provider call raised, the
response is not valid JSON, the decoded value is not an object (indexing
it raises, which is caught), or the object lacks the `"sufficient"` key. -/
def aiValidationBroken : Except String String → Bool
  | .error _ => true
  | .ok s =>
    match jsonLoads s with
    | none => true
    | some (.obj kvs) => (objLookup kvs "sufficient").isNone
    | some _ => true

/-- A well-formed validation response that explicitly reports the
requirements as insufficient: a JSON object whose `"sufficient"` value is
falsy. -/
def explicitInsufficient : Except String String → Bool
  | .error _ => false
  | .ok s =>
    match jsonLoads s with
    | some (.obj kvs) =>
      match objLookup kvs "sufficient" with
      | some v => !jsonTruthy v
      | none => false
    | _ => false

/-- C1.  Editing `requirements` with a different value resets the status to
draft and clears `refined_requirements` and `user_stories` — but leaves
`system_architecture` and `ux_design` exactly as they were: the service
clears only the two requirements artifacts (services.py lines 77–82). -/
theorem update_requirements_resets_draft_keeps_downstream
    (p : Project) (u : ProjectUpdate) (r : String)
    (hr : u.requirements = some r) (hne : r ≠ p.requirements) :
    (ProjectService.update_project p u).status = "draft" ∧
    (ProjectService.update_project p u).refined_requirements = none ∧
    (ProjectService.update_project p u).user_stories = none ∧
    (ProjectService.update_project p u).system_architecture = p.system_architecture ∧
    (ProjectService.update_project p u).ux_design = p.ux_design := by
  unfold ProjectService.update_project
  rw [hr]
  simp [hne]

/-- C1 witness: the reset at a concrete project and update. -/
theorem update_requirements_resets_draft_keeps_downstream_witness :
    (ProjectService.update_project projGenerated
        { requirements := some "now with basses too" }).status = "draft" ∧
    (ProjectService.update_project projGenerated
        { requirements := some "now with basses too" }).refined_requirements = none ∧
    (ProjectService.update_project projGenerated
        { requirements := some "now with basses too" }).user_stories = none ∧
    (ProjectService.update_project projGenerated
        { requirements := some "now with basses too" }).system_architecture =
      projGenerated.system_architecture ∧
    (ProjectService.update_project projGenerated
        { requirements := some "now with basses too" }).ux_design =
      projGenerated.ux_design :=
  update_requirements_resets_draft_keeps_downstream projGenerated
    { requirements := some "now with basses too" } "now with basses too" rfl
    (by decide)

/-- C1 counterexample: on a project that had reached the generated stage,
editing `requirements` leaves `system_architecture` and `ux_design`
populated — the claimed clearing of every downstream artifact does not
happen. -/
theorem update_requirements_cx :
    (ProjectService.update_project projGenerated
        { requirements := some "now with basses too" }).system_architecture = some "arch" ∧
    (ProjectService.update_project projGenerated
        { requirements := some "now with basses too" }).ux_design = some "ux" ∧
    (ProjectService.update_project projGenerated
        { requirements := some "now with basses too" }).status = "draft" := by
  decide

/-- C10.  When the submitted `requirements` are absent or equal to the
stored text, the update changes neither the status nor any artifact slot
(nor the requirements themselves); in particular updates touching only
`name`, `description` or `ai_provider` never reset the pipeline. -/
theorem update_without_requirements_change_is_frame
    (p : Project) (u : ProjectUpdate)
    (h : u.requirements = none ∨ u.requirements = some p.requirements) :
    (ProjectService.update_project p u).status = p.status ∧
    (ProjectService.update_project p u).requirements = p.requirements ∧
    (ProjectService.update_project p u).refined_requirements = p.refined_requirements ∧
    (ProjectService.update_project p u).user_stories = p.user_stories ∧
    (ProjectService.update_project p u).data_model = p.data_model ∧
    (ProjectService.update_project p u).system_architecture = p.system_architecture ∧
    (ProjectService.update_project p u).ux_design = p.ux_design := by
  unfold ProjectService.update_project
  rcases h with h | h <;> rw [h] <;> simp

/-- C10 witness: a rename-only update at a concrete generated project. -/
theorem update_without_requirements_change_is_frame_witness :
    (ProjectService.update_project projGenerated
        { name := some "Guitars and Basses" }).status = projGenerated.status ∧
    (ProjectService.update_project projGenerated
        { name := some "Guitars and Basses" }).requirements = projGenerated.requirements ∧
    (ProjectService.update_project projGenerated
        { name := some "Guitars and Basses" }).refined_requirements =
      projGenerated.refined_requirements ∧
    (ProjectService.update_project projGenerated
        { name := some "Guitars and Basses" }).user_stories = projGenerated.user_stories ∧
    (ProjectService.update_project projGenerated
        { name := some "Guitars and Basses" }).data_model = projGenerated.data_model ∧
    (ProjectService.update_project projGenerated
        { name := some "Guitars and Basses" }).system_architecture =
      projGenerated.system_architecture ∧
    (ProjectService.update_project projGenerated
        { name := some "Guitars and Basses" }).ux_design = projGenerated.ux_design :=
  update_without_requirements_change_is_frame projGenerated
    { name := some "Guitars and Basses" } (Or.inl rfl)

/-- C2.  Whichever stage operation is invoked, a failed run returns the
project exactly as it was (the mutations happen only on the commit path;
exceptions roll back) together with a typed failure value carrying the
error, so the same transition can simply be retried. -/
theorem stage_failure_leaves_project_unchanged
    (op : StageOp) (p : Project) (oracle : Oracle)
    (h : (ProjectService.runStage op p oracle).2.isFailure = true) :
    (ProjectService.runStage op p oracle).1 = p ∧
    ∃ msg, (ProjectService.runStage op p oracle).2 = .failure msg := by
  cases op with
  | analyze =>
    simp only [ProjectService.runStage, ProjectService.analyze_requirements] at h ⊢
    cases hA : RequirementsAnalystAgent.analyze_requirements p.requirements
        (wrapOracle p.ai_provider oracle) with
    | error e => simp [hA]
    | ok res => rw [hA] at h; simp [StageResult.isFailure] at h
  | architecture =>
    simp only [ProjectService.runStage,
      ProjectService.generate_system_architecture] at h
    simp [StageResult.isFailure] at h
  | uxdesign =>
    simp [ProjectService.runStage, ProjectService.generate_ux_design]
  | generate =>
    simp only [ProjectService.runStage, ProjectService.generate_project] at h ⊢
    by_cases h1 : optPresent p.refined_requirements
    · by_cases h2 : optPresent p.system_architecture
      · by_cases h3 : optPresent p.ux_design
        · simp only [h1, h2, h3, Bool.not_true, Bool.false_eq_true,
            if_false] at h ⊢
          cases hG : (FullStackDeveloperAgent.generate_project p.id p.name
              p.ai_provider oracle).1 with
          | error e => simp [hG]
          | ok payload => rw [hG] at h; simp [StageResult.isFailure] at h
        · simp [h1, h2, h3]
      · simp [h1, h2]
    · simp [h1]

/-- C2 witness: the requirements stage with a provider that raises fails
and hands back the untouched project. -/
theorem stage_failure_leaves_project_unchanged_witness :
    (ProjectService.runStage .analyze draftProject badOracle).1 = draftProject ∧
    ∃ msg, (ProjectService.runStage .analyze draftProject badOracle).2 = .failure msg :=
  stage_failure_leaves_project_unchanged .analyze draftProject badOracle (by rfl)

/-- C3 (amended).  Only the generation stage checks its preconditions:
each of `refined_requirements`, `system_architecture`, `ux_design` must be
present or `generate_project` fails with the corresponding precondition
message without consulting the AI at all (the result does not depend on
the oracle).  The architecture stage, by contrast, performs no
precondition check: it runs its handler and succeeds even when
`refined_requirements` is absent. -/
theorem stage_precondition_checks
    (p : Project) (oracle : Oracle) :
    (optPresent p.refined_requirements = false →
      ProjectService.generate_project p oracle =
        (p, .failure "Requirements analysis must be completed first")) ∧
    (optPresent p.refined_requirements = true →
      optPresent p.system_architecture = false →
      ProjectService.generate_project p oracle =
        (p, .failure "System architecture must be completed first")) ∧
    (optPresent p.refined_requirements = true →
      optPresent p.system_architecture = true →
      optPresent p.ux_design = false →
      ProjectService.generate_project p oracle =
        (p, .failure "UX/UI design must be completed first")) ∧
    (ProjectService.generate_system_architecture p oracle).2 = .success := by
  refine ⟨fun h1 => ?_, fun h1 h2 => ?_, fun h1 h2 h3 => ?_, ?_⟩
  · simp [ProjectService.generate_project, h1]
  · simp [ProjectService.generate_project, h1, h2]
  · simp [ProjectService.generate_project, h1, h2, h3]
  · simp [ProjectService.generate_system_architecture]

/-- C3 witness: on a draft project the generation stage fails its first
precondition, while the architecture stage succeeds. -/
theorem stage_precondition_checks_witness :
    (ProjectService.generate_project draftProject archOracle =
      (draftProject, .failure "Requirements analysis must be completed first")) ∧
    (ProjectService.generate_system_architecture draftProject archOracle).2 = .success :=
  ⟨(stage_precondition_checks draftProject archOracle).1 (by decide),
    (stage_precondition_checks draftProject archOracle).2.2.2⟩

/-- C3 counterexample: with `refined_requirements` absent the architecture
stage does not fail with a precondition error — it invokes the handler
(the committed artifact is the response the oracle produced) and reports success. -/
theorem architecture_stage_runs_without_upstream_cx :
    (ProjectService.generate_system_architecture draftProject archOracle).2 =
      .success ∧
    (ProjectService.generate_system_architecture draftProject
        archOracle).1.system_architecture = some "THE ARCHITECTURE DOCUMENT" ∧
    draftProject.refined_requirements = none := by
  refine ⟨rfl, ?_, rfl⟩
  rfl

/-- C4 (amended).  Empty responses are rejected only by the
requirements-refinement stage: an empty refined-requirements response
(call 2) always makes `analyze_requirements` fail.  The
system-architecture stage instead catches its internal empty-response
error and commits the non-empty fallback document as a success, and the
UX-designer agent returns an empty response as a successful `ux_design`
artifact. -/
theorem empty_response_handling (p : Project) (oracle : Oracle) :
    (oracle 2 = .ok "" →
      (ProjectService.analyze_requirements p oracle).2.isFailure = true) ∧
    (oracle 1 = .ok "" →
      (ProjectService.generate_system_architecture p oracle).2 = .success ∧
      (ProjectService.generate_system_architecture p oracle).1.system_architecture =
        some (SoftwareArchitectAgent.fallbackArchitecture p.name "AI response was empty")) ∧
    UXDesignerAgent.analyze_requirements (.ok "") = .success "" := by
  refine ⟨fun h => ?_, fun h => ?_, rfl⟩
  · have hw : (wrapOracle p.ai_provider oracle) 2 = .ok "" := by
      simp [wrapOracle, callAiWrap, h]
    simp only [ProjectService.analyze_requirements]
    cases hctx : RequirementsAnalystAgent.analyze_project_context p.requirements
        (wrapOracle p.ai_provider oracle) with
    | error e =>
      simp [RequirementsAnalystAgent.analyze_requirements, hctx,
        StageResult.isFailure]
    | ok ctx =>
      simp [RequirementsAnalystAgent.analyze_requirements, hctx, hw,
        StageResult.isFailure]
  · have hw : (wrapOracle p.ai_provider oracle) 1 = .ok "" := by
      simp [wrapOracle, callAiWrap, h]
    refine ⟨rfl, ?_⟩
    simp [ProjectService.generate_system_architecture,
      SoftwareArchitectAgent.analyze_requirements,
      SoftwareArchitectAgent.generate_system_architecture, hw]

/-- C4 witness: the three behaviours at the all-empty oracle. -/
theorem empty_response_handling_witness :
    (ProjectService.analyze_requirements projGenerated emptyOracle).2.isFailure = true ∧
    (ProjectService.generate_system_architecture projGenerated emptyOracle).2 = .success ∧
    UXDesignerAgent.analyze_requirements (.ok "") = .success "" :=
  ⟨(empty_response_handling projGenerated emptyOracle).1 rfl,
    ((empty_response_handling projGenerated emptyOracle).2.1 rfl).1,
    (empty_response_handling projGenerated emptyOracle).2.2⟩

/-- C4 counterexample: on an all-empty oracle the architecture stage does
not fail with an empty-response error — it succeeds and commits the
fallback document — and the UX-designer agent reports success with the
empty string as the artifact. -/
theorem empty_response_cx :
    (ProjectService.generate_system_architecture projGenerated emptyOracle).2 =
      .success ∧
    (ProjectService.generate_system_architecture projGenerated
        emptyOracle).1.status = "System Architecture Complete" ∧
    (ProjectService.generate_system_architecture projGenerated
        emptyOracle).1.system_architecture =
      some (SoftwareArchitectAgent.fallbackArchitecture "Guitar Site"
        "AI response was empty") ∧
    UXDesignerAgent.analyze_requirements (.ok "") = .success "" := by
  exact ⟨rfl, rfl, rfl, rfl⟩

/-- C5 (amended).  When a non-empty tech-stack response fails both the
direct parse and the brace-substring parse, `_analyze_tech_stack` does not
fail with a malformed-response error: it returns the hardcoded fallback
tech stack (static HTML, no backend) as a success. -/
theorem tech_stack_parse_failure_falls_back
    (resp : String) (hne : resp ≠ "")
    (hp : parseTechStackResponse resp = none) :
    FullStackDeveloperAgent.analyze_tech_stack (.ok resp) =
      .ok fallbackTechStack := by
  simp [FullStackDeveloperAgent.analyze_tech_stack, hne, hp]

/-- C5 witness: the fallback at the probe input the spec names. -/
theorem tech_stack_parse_failure_falls_back_witness :
    FullStackDeveloperAgent.analyze_tech_stack (.ok "not json") =
      .ok fallbackTechStack :=
  tech_stack_parse_failure_falls_back "not json" (by decide) (by rfl)

/-- C5 counterexample: on `"not json"` the result is a successful,
fabricated tech stack — frontend HTML/CSS, backend "None" — not a
malformed-response failure. -/
theorem tech_stack_not_json_cx :
    FullStackDeveloperAgent.analyze_tech_stack (.ok "not json") =
      .ok fallbackTechStack ∧
    fallbackTechStack.get "tech_stack_reasoning" =
      some (.str "Fallback due to AI response parsing failure") := by
  exact ⟨rfl, rfl⟩

/-- C6.  The tech-stack response parse attempts a direct `json.loads` of
the full text first (a directly parsable text is always returned as such),
and on failure parses the substring from the first `{` to the last `}`;
embedded in prose, `'\x7b"a":1\x7d'` is recovered. -/
theorem parse_direct_then_brace_extraction :
    (∀ s j, jsonLoads s = some j → parseTechStackResponse s = some j) ∧
    parseTechStackResponse "Sure, here: \x7b\"a\":1\x7d Thanks." =
      some (Json.obj [("a", Json.num 1 0)]) := by
  constructor
  · intro s j h
    simp [parseTechStackResponse, h]
  · rfl

/-- C6 witness: the direct-parse branch at a concrete parsable input. -/
theorem parse_direct_then_brace_extraction_witness :
    parseTechStackResponse "\x7b\"a\":1\x7d" =
      some (Json.obj [("a", Json.num 1 0)]) :=
  parse_direct_then_brace_extraction.1 "\x7b\"a\":1\x7d"
    (Json.obj [("a", Json.num 1 0)]) rfl

/-- C7 (amended, provable part).  Once the data-model call (0) and the
tech-stack call (1) return non-empty responses, the generation run always
reports success and advances the stage — however the later
file-generation calls behave: every file-generation sub-step catches its
own failures into an empty file list. -/
theorem generation_succeeds_despite_file_task_failures
    (p : Project) (oracle : Oracle) (dm ts : String)
    (hra : optPresent p.refined_requirements = true)
    (hsa : optPresent p.system_architecture = true)
    (hux : optPresent p.ux_design = true)
    (h0 : oracle 0 = .ok dm) (hdm : dm ≠ "")
    (h1 : oracle 1 = .ok ts) (hts : ts ≠ "") :
    (ProjectService.generate_project p oracle).2 = .success ∧
    (ProjectService.generate_project p oracle).1.status = "Project Generated" := by
  have hOk : ∃ payload r,
      FullStackDeveloperAgent.generate_project p.id p.name p.ai_provider oracle =
        (.ok payload, r) := by
    simp only [FullStackDeveloperAgent.generate_project, wrapOracle, h0,
      callAiWrap, h1, FullStackDeveloperAgent.analyze_tech_stack]
    simp only [hdm, if_false, hts]
    cases hp : parseTechStackResponse ts <;> simp [hp]
  obtain ⟨payload, r, hAgent⟩ := hOk
  have hA1 : (FullStackDeveloperAgent.generate_project p.id p.name
      p.ai_provider oracle).1 = .ok payload := by rw [hAgent]
  constructor <;>
    simp [ProjectService.generate_project, hra, hsa, hux, hA1]

/-- C7 witness: the fan-out scenario still reports success and advances the
stage. -/
theorem generation_succeeds_despite_file_task_failures_witness :
    (ProjectService.generate_project readyProject fanOutOracle).2 = .success ∧
    (ProjectService.generate_project readyProject fanOutOracle).1.status =
      "Project Generated" :=
  generation_succeeds_despite_file_task_failures readyProject fanOutOracle
    "GENERATED CONTENT" techStackResponse rfl rfl rfl rfl (by decide) rfl
    (by decide)

set_option maxRecDepth 4000 in
/-- C7 counterexample: in the fan-out scenario the package.json task
(call 3) succeeded, yet the recorded artifacts are only the backend files
— the failing Dockerfile task discarded the record of its group and the
.gitignore sibling was never attempted (the final call counter is 7:
calls 5 and 6 are the backend files and no further call is made).  The
stage still succeeds, and no per-task failure record exists anywhere in
the result. -/
theorem fan_out_partial_failure_cx :
    (FullStackDeveloperAgent.generate_project 7 "demo" "anthropic"
        fanOutOracle).1.map GenPayload.code_generation =
      .ok (.ok ["server.js", ".env.example"]) ∧
    (FullStackDeveloperAgent.generate_project 7 "demo" "anthropic"
        fanOutOracle).2 = 7 ∧
    fanOutOracle 3 = .ok "GENERATED CONTENT" ∧
    (ProjectService.generate_project readyProject fanOutOracle).2 = .success ∧
    (ProjectService.generate_project readyProject fanOutOracle).1.status =
      "Project Generated" := by
  exact ⟨rfl, rfl, rfl, rfl, rfl⟩

/-- A substring of the tail is a substring of the whole. -/
theorem listContainsSub_append_left (n l2 : List Char) :
    ∀ l1, listContainsSub n l2 = true → listContainsSub n (l1 ++ l2) = true := by
  intro l1 h
  induction l1 with
  | nil => simpa using h
  | cons c t ih =>
    show (listStartsWith n (c :: (t ++ l2)) || listContainsSub n (t ++ l2)) = true
    rw [ih]
    simp

/-- C8.  Creating a provider under any name outside the registry fails
with the unsupported-provider `ValueError`, whatever the API key, and the
message lists every currently registered provider name. -/
theorem create_provider_unknown_lists_registered
    (provider_name api_key : String)
    (h : provider_name ∉ AIProviderFactory.providerNames) :
    AIProviderFactory.create_provider provider_name api_key =
      .error (AIProviderFactory.unsupportedMessage provider_name) ∧
    ∀ r ∈ AIProviderFactory.providerNames,
      listContainsSub r.data
        (AIProviderFactory.unsupportedMessage provider_name).data = true := by
  constructor
  · simp [AIProviderFactory.create_provider, h]
  · intro r hr
    have hmsg : (AIProviderFactory.unsupportedMessage provider_name).data =
        ("Unsupported AI provider: ").data ++ provider_name.data ++
          ((". Supported providers: " ++
            pyStrListRepr AIProviderFactory.providerNames).data) := by
      simp [AIProviderFactory.unsupportedMessage, String.data_append,
        List.append_assoc]
    rw [hmsg, List.append_assoc]
    apply listContainsSub_append_left
    apply listContainsSub_append_left
    simp only [AIProviderFactory.providerNames, List.mem_cons,
      List.not_mem_nil, or_false] at hr
    rcases hr with hr | hr <;> subst hr <;> decide

/-- C8 witness: the factory at the unknown name `"unknown"`. -/
theorem create_provider_unknown_lists_registered_witness :
    AIProviderFactory.create_provider "unknown" "key" =
      .error (AIProviderFactory.unsupportedMessage "unknown") ∧
    ∀ r ∈ AIProviderFactory.providerNames,
      listContainsSub r.data
        (AIProviderFactory.unsupportedMessage "unknown").data = true :=
  create_provider_unknown_lists_registered "unknown" "key" (by decide)

/-- C9.  Whenever the validation call itself fails, validation defaults to
sufficient — `(True, "")` — so analysis proceeds; and validation refuses
exactly for blank input or for a well-formed response that explicitly
reports insufficiency. -/
theorem validation_fails_open (requirements : String)
    (call : Except String String) :
    (pyStrip requirements ≠ "" → aiValidationBroken call = true →
      RequirementsAnalystAgent.validate_requirements_ai requirements call =
        (true, "")) ∧
    ((RequirementsAnalystAgent.validate_requirements_ai requirements call).1 =
        false ↔
      (pyStrip requirements = "" ∨ explicitInsufficient call = true)) := by
  by_cases hb : (requirements = "" ∨ pyStrip requirements = "")
  · have hblank : pyStrip requirements = "" := by
      rcases hb with hb | hb
      · subst hb; rfl
      · exact hb
    constructor
    · intro hnb _
      exact absurd hblank hnb
    · simp only [RequirementsAnalystAgent.validate_requirements_ai, if_pos hb]
      simp [hblank]
  · constructor
    · intro _ hbroken
      simp only [RequirementsAnalystAgent.validate_requirements_ai, if_neg hb]
      cases call with
      | error e => rfl
      | ok s =>
        cases hj : jsonLoads s with
        | none => simp [hj]
        | some j =>
          cases j with
          | obj kvs =>
            simp only [aiValidationBroken, hj] at hbroken
            have hnone : objLookup kvs "sufficient" = none :=
              Option.isNone_iff_eq_none.mp hbroken
            simp [hj, hnone]
          | null => simp [hj]
          | bool b => simp [hj]
          | num m e => simp [hj]
          | str t => simp [hj]
          | arr xs => simp [hj]
    · have hbs : pyStrip requirements ≠ "" := by
        intro hc
        exact hb (Or.inr hc)
      simp only [RequirementsAnalystAgent.validate_requirements_ai, if_neg hb]
      cases call with
      | error e => simp [explicitInsufficient, hbs]
      | ok s =>
        cases hj : jsonLoads s with
        | none => simp [explicitInsufficient, hj, hbs]
        | some j =>
          cases j with
          | obj kvs =>
            cases hs : objLookup kvs "sufficient" with
            | none => simp [explicitInsufficient, hj, hs, hbs]
            | some v =>
              simp only [hj, hs, explicitInsufficient, hbs, false_or]
              cases hv : jsonTruthy v <;> simp [hv]
          | null => simp [explicitInsufficient, hj, hbs]
          | bool b => simp [explicitInsufficient, hj, hbs]
          | num m e => simp [explicitInsufficient, hj, hbs]
          | str t => simp [explicitInsufficient, hj, hbs]
          | arr xs => simp [explicitInsufficient, hj, hbs]

/-- C9 witness: a raising validation call on non-blank requirements
defaults to sufficient. -/
theorem validation_fails_open_witness :
    RequirementsAnalystAgent.validate_requirements_ai
      "build a simple calculator app" (.error "timeout") = (true, "") :=
  (validation_fails_open "build a simple calculator app" (.error "timeout")).1
    (by decide) rfl
